import Mathlib

set_option linter.unusedVariables false

/-!
Shallow embedding of `Sentiment-Classifier/models.py`: unigram/bigram feature
extraction over an append-only string indexer, a fixed-epoch logistic-regression
training loop, and the `train_model` dispatcher.  Real-valued float arithmetic
(`math.exp`, `np.dot`) is idealized over `ℝ`; feature vectors are count vectors
over `ℕ`.  The collaborators that live outside `models.py` (the `Indexer` from
`utils.py`, `SentimentExample` from `sentiment_data.py`, and the nltk stopword
set) are modelled from the spec, and vocabulary construction is parametrized by
the stopword list.
-/

/-- Modelled from the spec: `SentimentExample` from `sentiment_data.py` (not in
the sources) is "(ordered sequence of word tokens, integer label ∈ {0,1})". -/
structure SentimentExample where
  words : List String
  label : ℕ
deriving DecidableEq

/-- Modelled from the spec: the `Indexer` of `utils.py` (not in the sources) is
an append-only bijection between feature strings and dense indices assigned in
first-seen order, with membership test, string-to-index lookup and
`add_and_get_index`.  We carry the object list in insertion order. -/
structure Indexer where
  objs : List String
deriving DecidableEq

def Indexer.size (ind : Indexer) : ℕ := ind.objs.length

/-- Membership test of the indexer (Python `Indexer.contains` / the `in`
operator), rendered as decidable membership in the object list. -/
def Indexer.contains (ind : Indexer) (s : String) : Prop := s ∈ ind.objs

instance (ind : Indexer) (s : String) : Decidable (ind.contains s) :=
  inferInstanceAs (Decidable (s ∈ ind.objs))

/-- Modelled from the spec: `index_of` returns the index of an object already in
the indexer.  (The real `utils.py` returns -1 when absent; every call site in
`models.py` guards with `contains`, so the absent case — here `objs.length` —
is never consulted.) -/
def Indexer.index_of (ind : Indexer) (s : String) : ℕ := ind.objs.indexOf s

/-- Modelled from the spec: add an object if new, and return its (new or
existing) index; indices are dense and assigned in first-seen order. -/
def Indexer.add_and_get_index (ind : Indexer) (s : String) : Indexer × ℕ :=
  if ind.contains s then (ind, ind.objs.indexOf s)
  else (⟨ind.objs ++ [s]⟩, ind.objs.length)

/-- Embeds Python's `str.lower()` as a character-by-character ASCII case map.
(The builtin `String.toLower` is extensionally the same map but is defined by
well-founded recursion over positions, which the kernel cannot evaluate; the
structural form below keeps concrete instances computable by `decide`.) -/
def pyLower (s : String) : String := ⟨s.data.map Char.toLower⟩

/-- Embeds the increment operation both extractors perform on a candidate
feature string `s`: when the indexer contains `s`, bump the count at
`indexer.index_of s`; otherwise leave the vector unchanged (unseen features are
silently dropped). -/
def feature_count_step (indexer : Indexer) (str_features : List ℕ)
    (s : String) : List ℕ :=
  if indexer.contains s then
    str_features.set (indexer.index_of s)
      (str_features.getD (indexer.index_of s) 0 + 1)
  else str_features

/-- Embeds `UnigramFeatureExtractor.extract_features` (models.py 43-48): start
from `np.zeros(len(indexer))`, and for each token whose lower-cased form the
indexer contains, increment the entry at its index.  The `add_to_indexer` flag
is accepted and ignored, exactly as in the source. -/
def UnigramFeatureExtractor.extract_features (indexer : Indexer)
    (ex_words : List String) (add_to_indexer : Bool) : List ℕ :=
  ex_words.foldl
    (fun str_features ele => feature_count_step indexer str_features (pyLower ele))
    (List.replicate indexer.size 0)

/-- Embeds `BigramFeatureExtractor.extract_features` (models.py 60-67): for each
`i` in `range(0, len(ex_words)-1)` form `ex_words[i] ++ " " ++ ex_words[i+1]`,
and increment the entry at its index when the indexer contains its lower-cased
form; the adjacent pairs are exactly `ex_words.zip ex_words.tail`.  The
`add_to_indexer` flag is accepted and ignored, exactly as in the source. -/
def BigramFeatureExtractor.extract_features (indexer : Indexer)
    (ex_words : List String) (add_to_indexer : Bool) : List ℕ :=
  (ex_words.zip ex_words.tail).foldl
    (fun str_features p =>
      feature_count_step indexer str_features (pyLower (p.1 ++ " " ++ p.2)))
    (List.replicate indexer.size 0)

/-- Feature extractor variants of models.py that are actually constructible
(`BetterFeatureExtractor.__init__` raises unconditionally and is handled at its
only call site in `train_model`). -/
inductive FeatureExtractor where
  | unigram (indexer : Indexer)
  | bigram (indexer : Indexer)
deriving DecidableEq

def FeatureExtractor.get_indexer : FeatureExtractor → Indexer
  | .unigram indexer => indexer
  | .bigram indexer => indexer

def FeatureExtractor.extract_features (fe : FeatureExtractor)
    (ex_words : List String) (add_to_indexer : Bool) : List ℕ :=
  match fe with
  | .unigram indexer =>
      UnigramFeatureExtractor.extract_features indexer ex_words add_to_indexer
  | .bigram indexer =>
      BigramFeatureExtractor.extract_features indexer ex_words add_to_indexer

/-- Embeds the apostrophe character, written by code point to keep the source
free of quote-escape sequences. -/
def apos : String := (Char.ofNat 39).toString

/-- Embeds the `punkt` tuple of `train_model` (models.py 184): comma, period,
comma-space, ellipsis, question mark, single apostrophe, double apostrophe,
exclamation mark, semicolon, colon. -/
def punkt : List String :=
  [",", ".", ", ", "...", "?", apos, apos ++ apos, "!", ";", ":"]

/-- Embeds the unigram vocabulary loop body of `train_model` (models.py
190-193): a token is added, lower-cased, unless its lower-cased form is a
stopword or a punctuation-set member. -/
def unigram_vocab_step (stop_words : List String) (indexer : Indexer)
    (word : String) : Indexer :=
  if pyLower word ∉ stop_words ∧ pyLower word ∉ punkt then
    (indexer.add_and_get_index (pyLower word)).1
  else indexer

/-- Embeds the unigram vocabulary construction of `train_model` (models.py
190-193): every token of every training example, in order. -/
def build_unigram_vocab (stop_words : List String) (indexer : Indexer)
    (train_exs : List SentimentExample) : Indexer :=
  train_exs.foldl
    (fun ind ex => ex.words.foldl (unigram_vocab_step stop_words) ind) indexer

/-- Embeds the bigram vocabulary loop body of `train_model` (models.py
198-203): the pair is skipped when
`stop_words.contains(w1) and stop_words.contains(w2) or
(punkt.contains(w1) or punkt.contains(w2))` — Python precedence
`(A and B) or (C or D)` — with membership tested on the original-case tokens;
otherwise the lower-cased pair joined by a space is added. -/
def bigram_vocab_step (stop_words : List String) (indexer : Indexer)
    (p : String × String) : Indexer :=
  if (p.1 ∈ stop_words ∧ p.2 ∈ stop_words) ∨ (p.1 ∈ punkt ∨ p.2 ∈ punkt) then
    indexer
  else (indexer.add_and_get_index (pyLower (p.1 ++ " " ++ p.2))).1

/-- Embeds one sentence of the bigram vocabulary construction (models.py
198-203): the loop over `i in range(0, len(ex.words)-1)` visits exactly the
adjacent pairs `ws.zip ws.tail`. -/
def bigram_vocab_sentence (stop_words : List String) (indexer : Indexer)
    (ws : List String) : Indexer :=
  (ws.zip ws.tail).foldl (bigram_vocab_step stop_words) indexer

/-- Embeds the bigram vocabulary construction of `train_model` (models.py
197-203) over the whole training set. -/
def build_bigram_vocab (stop_words : List String) (indexer : Indexer)
    (train_exs : List SentimentExample) : Indexer :=
  train_exs.foldl (fun ind ex => bigram_vocab_sentence stop_words ind ex.words)
    indexer

/-- States the §4.2 skip condition in the words of the spec: a pair is skipped
iff (both tokens are stopwords) OR (either token is a punctuation-set
member). -/
def bigram_skip (stop_words : List String) (w1 w2 : String) : Prop :=
  (w1 ∈ stop_words ∧ w2 ∈ stop_words) ∨ (w1 ∈ punkt ∨ w2 ∈ punkt)

instance (stop_words : List String) (w1 w2 : String) :
    Decidable (bigram_skip stop_words w1 w2) :=
  inferInstanceAs (Decidable (_ ∨ _))

/-- States the per-sentence bigram vocabulary construction in the words of the
spec and the claim: among the adjacent pairs, exactly those for which
`bigram_skip` fails are added, in order, as the lower-cased pair joined by a
space. -/
def bigram_vocab_sentence_spec (stop_words : List String) (indexer : Indexer)
    (ws : List String) : Indexer :=
  (((ws.zip ws.tail).filter
      (fun p => decide (¬ bigram_skip stop_words p.1 p.2))).map
    (fun p => pyLower (p.1 ++ " " ++ p.2))).foldl
    (fun ind s => (ind.add_and_get_index s).1) indexer

/-- Embeds `np.dot` on two rank-1 arrays: the dot product of the real weight
vector with the (count-valued) feature vector. -/
def np_dot (w : List ℝ) (f : List ℕ) : ℝ :=
  (List.zipWith (fun wi fi => wi * (fi : ℝ)) w f).sum

/-- Embeds `LogisticRegressionClassifier` (models.py 120-137): wraps the weight
vector and the feature extractor. -/
structure LogisticRegressionClassifier where
  weights : List ℝ
  feat_extractor : FeatureExtractor

/-- Embeds `LogisticRegressionClassifier.predict` (models.py 131-137): extract
features with the flag `False`, compute `expo = exp(w · f)`,
`possibility = expo / (1 + expo)`, return 1 when `possibility > 0.5`, else 0. -/
noncomputable def LogisticRegressionClassifier.predict
    (c : LogisticRegressionClassifier) (ex_words : List String) : ℕ :=
  let str_features := c.feat_extractor.extract_features ex_words false
  let expo := Real.exp (np_dot c.weights str_features)
  let possibility := expo / (1 + expo)
  if possibility > 0.5 then 1 else 0

/-- Embeds `TrivialSentimentClassifier.predict` (models.py 95-96). -/
def TrivialSentimentClassifier.predict (sentence : List String) : ℕ := 1

/-- Sentiment classifier variants of models.py that `train_model` can actually
return (`PerceptronClassifier` is an unimplemented stub raising on
construction). -/
inductive SentimentClassifier where
  | trivialClassifier
  | logistic (c : LogisticRegressionClassifier)

/-- Dispatches `predict` over the classifier variants, as the Python subclass
methods do. -/
noncomputable def SentimentClassifier.predict :
    SentimentClassifier → List String → ℕ
  | .trivialClassifier, sentence => TrivialSentimentClassifier.predict sentence
  | .logistic c, ex_words => c.predict ex_words

/-- Embeds the body of the inner loop of `train_logistic_regression` (models.py
162-167): `str_features = extract(ex.words, False)`;
`expo = exp(np.dot(weights, str_features))`; `possibility = expo / (1+expo)`;
`w_gradient = np.dot(ex.label - possibility, str_features)` (a scalar-vector
product); `weights = np.add(weights, np.dot(learning_rate, w_gradient))`. -/
noncomputable def lr_weight_update (feat_extractor : FeatureExtractor)
    (learning_rate : ℝ) (weights : List ℝ) (ex : SentimentExample) : List ℝ :=
  let str_features := feat_extractor.extract_features ex.words false
  let expo := Real.exp (np_dot weights str_features)
  let possibility := expo / (1 + expo)
  let w_gradient := str_features.map
    (fun f => ((ex.label : ℝ) - possibility) * (f : ℝ))
  List.zipWith (fun w g => w + learning_rate * g) weights w_gradient

/-- Embeds `train_logistic_regression` (models.py 150-168): weights start as
`np.transpose(np.zeros(len(indexer)))` (all zeros, indexer-size length),
`learning_rate = 0.0001`, `Epoch = 10`, a pass over `train_exs` in order per
epoch, and the result wraps the final weights with the same extractor. -/
noncomputable def train_logistic_regression (train_exs : List SentimentExample)
    (feat_extractor : FeatureExtractor) : LogisticRegressionClassifier :=
  let indexer := feat_extractor.get_indexer
  let weights : List ℝ := List.replicate indexer.size 0
  let learning_rate : ℝ := 0.0001
  let Epoch : ℕ := 10
  LogisticRegressionClassifier.mk
    ((List.range Epoch).foldl
      (fun weights _ =>
        train_exs.foldl (lr_weight_update feat_extractor learning_rate) weights)
      weights)
    feat_extractor

/-- States the logistic link in the spec's words: sigmoid of the score. -/
noncomputable def sigmoid (x : ℝ) : ℝ := Real.exp x / (1 + Real.exp x)

/-- States one training update in the spec's words (§4.3): extract the feature
vector without growing the vocabulary, compute the predicted probability
`sigmoid(weights · features)`, and update
`weights := weights + learning_rate * (true_label - predicted) * features`. -/
noncomputable def lr_spec_update (feat_extractor : FeatureExtractor)
    (learning_rate : ℝ) (weights : List ℝ) (ex : SentimentExample) : List ℝ :=
  let feature_vector := feat_extractor.extract_features ex.words false
  let predicted := sigmoid (np_dot weights feature_vector)
  List.zipWith
    (fun w f => w + learning_rate * (((ex.label : ℝ) - predicted) * (f : ℝ)))
    weights feature_vector

/-- States the whole training loop in the spec's words (§4.3): all-zero initial
weights of indexer-size length, exactly 10 epochs, each epoch one in-order pass
of `lr_spec_update` with the fixed learning rate 0.0001, and the returned
classifier wraps the final weights and the same extractor. -/
noncomputable def train_logistic_regression_spec
    (train_exs : List SentimentExample) (feat_extractor : FeatureExtractor) :
    LogisticRegressionClassifier :=
  LogisticRegressionClassifier.mk
    ((List.range 10).foldl
      (fun weights _ =>
        train_exs.foldl (lr_spec_update feat_extractor 0.0001) weights)
      (List.replicate feat_extractor.get_indexer.size 0))
    feat_extractor

/-- Embeds the `args` bundle of `train_model`: the two string options. -/
structure Args where
  model : String
  feats : String
deriving DecidableEq

/-- Embeds `train_model` (models.py 172-220) with Python exceptions rendered as
`Except.error` of the exception message.  The first phase builds the feature
extractor (`None` when the model is TRIVIAL; `BetterFeatureExtractor.__init__`
raises "Must be implemented"); the second phase dispatches on the model string
(`train_perceptron` raises "Must be implemented").  The `none` case inside the
LR branch is unreachable — `feat_extractor` is `None` only when
`args.model == "TRIVIAL"`, which the first test of the second phase already
caught — and renders the `AttributeError` Python would raise on
`None.get_indexer()`.  The nltk stopword set is passed in as `stop_words`. -/
noncomputable def train_model (stop_words : List String) (args : Args)
    (train_exs : List SentimentExample) (dev_exs : List SentimentExample) :
    Except String SentimentClassifier :=
  let indexer : Indexer := ⟨[]⟩
  let feat_extractor : Except String (Option FeatureExtractor) :=
    if args.model = "TRIVIAL" then .ok none
    else if args.feats = "UNIGRAM" then
      .ok (some (.unigram (build_unigram_vocab stop_words indexer train_exs)))
    else if args.feats = "BIGRAM" then
      .ok (some (.bigram (build_bigram_vocab stop_words indexer train_exs)))
    else if args.feats = "BETTER" then .error "Must be implemented"
    else .error "Pass in UNIGRAM, BIGRAM, or BETTER to run the appropriate system"
  match feat_extractor with
  | .error e => .error e
  | .ok fe =>
    if args.model = "TRIVIAL" then .ok .trivialClassifier
    else if args.model = "PERCEPTRON" then .error "Must be implemented"
    else if args.model = "LR" then
      match fe with
      | some fe => .ok (.logistic (train_logistic_regression train_exs fe))
      | none =>
          .error "AttributeError: NoneType object has no attribute get_indexer"
    else .error "Pass in TRIVIAL, PERCEPTRON, or LR to run the appropriate system"

/-! Helper lemmas shared by the claim theorems. -/

/-- Adding a string to the indexer makes it contained afterwards, whether or
not it was already present. -/
theorem contains_add_and_get_index (ind : Indexer) (s : String) :
    ((ind.add_and_get_index s).1).contains s := by
  unfold Indexer.add_and_get_index
  split
  · next h => exact h
  · show s ∈ ind.objs ++ [s]
    simp

/-- One feature-count step preserves the vector length. -/
theorem feature_count_step_length (indexer : Indexer) (acc : List ℕ)
    (s : String) : (feature_count_step indexer acc s).length = acc.length := by
  unfold feature_count_step
  split
  · exact List.length_set ..
  · rfl

/-- A whole fold of feature-count steps preserves the vector length. -/
theorem foldl_feature_count_step_length (indexer : Indexer)
    (ss : List String) : ∀ acc : List ℕ,
    (ss.foldl (feature_count_step indexer) acc).length = acc.length := by
  induction ss with
  | nil => intro acc; rfl
  | cons s ss ih =>
      intro acc
      rw [List.foldl_cons, ih, feature_count_step_length]

/-- A fold of feature-count steps over strings none of which the indexer
contains leaves the vector unchanged. -/
theorem foldl_feature_count_step_unseen (indexer : Indexer)
    (ss : List String) : ∀ acc : List ℕ, (∀ s ∈ ss, ¬ indexer.contains s) →
    ss.foldl (feature_count_step indexer) acc = acc := by
  induction ss with
  | nil => intro acc _; rfl
  | cons s ss ih =>
      intro acc h
      rw [List.foldl_cons]
      have hs : ¬ indexer.contains s := h s (List.mem_cons_self ..)
      rw [show feature_count_step indexer acc s = acc from by
        unfold feature_count_step; rw [if_neg hs]]
      exact ih acc (fun t ht => h t (List.mem_cons_of_mem _ ht))


/-- Entry tracking for a fold of feature-count steps: over a duplicate-free
indexer, entry `i` grows by exactly the number of processed strings equal to
the object stored at index `i`. -/
theorem foldl_feature_count_step_getElem (indexer : Indexer)
    (hnd : indexer.objs.Nodup) (ss : List String) :
    ∀ (acc : List ℕ) (v i : ℕ), i < indexer.objs.length →
    acc.length = indexer.objs.length → acc[i]? = some v →
    (ss.foldl (feature_count_step indexer) acc)[i]? =
      some (v + ss.countP (fun s => s == indexer.objs.getD i "")) := by
  induction ss with
  | nil =>
      intro acc v i hi hlen hv
      simpa using hv
  | cons s ss ih =>
      intro acc v i hi hlen hv
      rw [List.foldl_cons]
      have hgi : indexer.objs.getD i "" = indexer.objs[i] := by
        rw [List.getD_eq_getElem?_getD, List.getElem?_eq_getElem hi]
        rfl
      by_cases hc : indexer.contains s
      · have hmem : s ∈ indexer.objs := hc
        have hjlt : indexer.objs.indexOf s < indexer.objs.length :=
          List.indexOf_lt_length.2 hmem
        have hstep : feature_count_step indexer acc s =
            acc.set (indexer.objs.indexOf s)
              (acc.getD (indexer.objs.indexOf s) 0 + 1) := by
          unfold feature_count_step Indexer.index_of
          rw [if_pos hc]
        rw [hstep]
        by_cases hij : i = indexer.objs.indexOf s
        · have hgd : acc.getD i 0 = v := by
            rw [List.getD_eq_getElem?_getD, hv]
            rfl
          have hset : (acc.set (indexer.objs.indexOf s)
              (acc.getD (indexer.objs.indexOf s) 0 + 1))[i]? = some (v + 1) := by
            rw [← hij, List.getElem?_set_self (hlen ▸ hi), hgd]
          have h1 : indexer.objs[i]? = some s := by
            rw [hij]
            exact List.getElem?_indexOf hmem
          have hobj : indexer.objs.getD i "" = s := by
            rw [List.getD_eq_getElem?_getD, h1]
            rfl
          rw [ih _ (v + 1) i hi (by rw [List.length_set]; exact hlen) hset]
          simp only [List.countP_cons, hobj, beq_self_eq_true, if_true,
            Option.some.injEq]
          omega
        · have hset : (acc.set (indexer.objs.indexOf s)
              (acc.getD (indexer.objs.indexOf s) 0 + 1))[i]? = some v := by
            rw [List.getElem?_set_ne (fun h => hij h.symm), hv]
          have hne : s ≠ indexer.objs.getD i "" := by
            intro hse
            apply hij
            have h2 : indexer.objs.indexOf s = i := by
              rw [hse, hgi]
              exact List.indexOf_getElem hnd i hi
            omega
          rw [List.getD_eq_getElem?_getD] at hne
          rw [ih _ v i hi (by rw [List.length_set]; exact hlen) hset]
          simp [List.countP_cons, beq_iff_eq, hne]
      · have hstep : feature_count_step indexer acc s = acc := by
          unfold feature_count_step
          rw [if_neg hc]
        have hne : s ≠ indexer.objs.getD i "" := by
          intro hse
          apply hc
          show s ∈ indexer.objs
          rw [hse, hgi]
          exact List.getElem_mem hi
        rw [List.getD_eq_getElem?_getD] at hne
        rw [hstep, ih acc v i hi hlen hv]
        simp [List.countP_cons, beq_iff_eq, hne]

/-- A pair satisfying the skip condition leaves the indexer untouched. -/
theorem bigram_vocab_step_of_skip (stop_words : List String) (indexer : Indexer)
    (p : String × String) (h : bigram_skip stop_words p.1 p.2) :
    bigram_vocab_step stop_words indexer p = indexer := by
  unfold bigram_vocab_step
  exact if_pos h

/-- A pair failing the skip condition is added as the lower-cased pair joined
by a space. -/
theorem bigram_vocab_step_of_not_skip (stop_words : List String)
    (indexer : Indexer) (p : String × String)
    (h : ¬ bigram_skip stop_words p.1 p.2) :
    bigram_vocab_step stop_words indexer p =
      (indexer.add_and_get_index (pyLower (p.1 ++ " " ++ p.2))).1 := by
  unfold bigram_vocab_step
  exact if_neg h

/-- Fold/filter/map commutation for the bigram vocabulary construction: folding
`bigram_vocab_step` over a pair list adds exactly the lower-cased joined forms
of the pairs the skip condition lets through, in order. -/
theorem foldl_bigram_vocab_step_eq (stop_words : List String)
    (ps : List (String × String)) : ∀ indexer : Indexer,
    ps.foldl (bigram_vocab_step stop_words) indexer =
      ((ps.filter (fun p => decide (¬ bigram_skip stop_words p.1 p.2))).map
        (fun p => pyLower (p.1 ++ " " ++ p.2))).foldl
        (fun ind s => (ind.add_and_get_index s).1) indexer := by
  induction ps with
  | nil => intro indexer; rfl
  | cons p ps ih =>
      intro indexer
      rw [List.foldl_cons, List.filter_cons]
      by_cases hs : bigram_skip stop_words p.1 p.2
      · rw [bigram_vocab_step_of_skip stop_words indexer p hs,
          if_neg (by simp [hs]), ih]
      · rw [bigram_vocab_step_of_not_skip stop_words indexer p hs,
          if_pos (by simp [hs]), List.map_cons, List.foldl_cons, ih]

/-- The in-code per-example weight update coincides with the update the spec
describes: the scalar factor is the sigmoid-based gradient coefficient and it
multiplies the feature vector entrywise. -/
theorem lr_weight_update_eq_spec (feat_extractor : FeatureExtractor)
    (learning_rate : ℝ) :
    lr_weight_update feat_extractor learning_rate =
      lr_spec_update feat_extractor learning_rate := by
  funext weights ex
  simp only [lr_weight_update, lr_spec_update, sigmoid, List.zipWith_map_right]

/-- C1: train_logistic_regression initializes the weights to all zeros of
indexer-size length, runs exactly 10 epochs over the training examples in their
original order, extracts each feature vector without growing the vocabulary,
updates weights by learning_rate * (label - sigmoid(weights . features)) *
features with the fixed constant learning rate 0.0001, and returns a classifier
wrapping the final weights and the same extractor; termination is solely the
epoch count.  Stated as: the code equals the spec-side training loop
`train_logistic_regression_spec`, which spells out exactly that state
machine. -/
theorem C1_train_logistic_regression_matches_spec
    (train_exs : List SentimentExample) (feat_extractor : FeatureExtractor) :
    train_logistic_regression train_exs feat_extractor =
      train_logistic_regression_spec train_exs feat_extractor := by
  simp only [train_logistic_regression, train_logistic_regression_spec,
    lr_weight_update_eq_spec]

/-- C2: predict extracts the feature vector with the no-growth flag, computes
sigmoid(weights . features), returns 1 when that probability strictly exceeds
0.5 and 0 otherwise; in particular it returns only 0 or 1. -/
theorem C2_predict_threshold (c : LogisticRegressionClassifier)
    (ex_words : List String) :
    c.predict ex_words =
        (if sigmoid (np_dot c.weights
            (c.feat_extractor.extract_features ex_words false)) > 0.5
          then 1 else 0) ∧
      (c.predict ex_words = 0 ∨ c.predict ex_words = 1) := by
  constructor
  · rfl
  · simp only [LogisticRegressionClassifier.predict]
    split
    · right; rfl
    · left; rfl

/-- C3: during bigram vocabulary construction an adjacent pair is skipped iff
(both tokens are stopwords) OR (either token is punctuation), and every pair
for which neither condition holds is added as the lower-cased pair joined by a
space: the per-sentence loop equals the spec-side filtered construction, and so
does the whole training-set pass. -/
theorem C3_bigram_vocab_skip_iff (stop_words : List String) (indexer : Indexer)
    (ws : List String) :
    bigram_vocab_sentence stop_words indexer ws =
        bigram_vocab_sentence_spec stop_words indexer ws ∧
      ∀ train_exs : List SentimentExample,
        build_bigram_vocab stop_words indexer train_exs =
          train_exs.foldl
            (fun ind ex => bigram_vocab_sentence_spec stop_words ind ex.words)
            indexer := by
  have key : ∀ ind ws', bigram_vocab_sentence stop_words ind ws' =
      bigram_vocab_sentence_spec stop_words ind ws' := fun ind ws' =>
    foldl_bigram_vocab_step_eq stop_words (ws'.zip ws'.tail) ind
  refine ⟨key indexer ws, fun train_exs => ?_⟩
  unfold build_bigram_vocab
  rw [show (fun ind (ex : SentimentExample) =>
      bigram_vocab_sentence stop_words ind ex.words) =
    (fun ind ex => bigram_vocab_sentence_spec stop_words ind ex.words) from
    funext fun ind => funext fun ex => key ind ex.words]

/-- C6: both extractors return the same vector for both values of the
add_to_indexer flag; extraction is a pure function of the (unmodified) indexer
and the token list, so the vocabulary never grows at extraction time. -/
theorem C6_extract_ignores_flag (fe : FeatureExtractor)
    (ex_words : List String) (b1 b2 : Bool) :
    fe.extract_features ex_words b1 = fe.extract_features ex_words b2 ∧
      ∀ indexer : Indexer,
        UnigramFeatureExtractor.extract_features indexer ex_words b1 =
            UnigramFeatureExtractor.extract_features indexer ex_words b2 ∧
          BigramFeatureExtractor.extract_features indexer ex_words b1 =
            BigramFeatureExtractor.extract_features indexer ex_words b2 := by
  refine ⟨?_, fun indexer => ⟨rfl, rfl⟩⟩
  cases fe <;> rfl

/-- C7: vocabulary construction and logistic-regression training are
deterministic: two runs of train_model on equal inputs return equal results,
and likewise for train_logistic_regression and both vocabulary builders (the
embedding is a pure function, so a run is determined by its inputs). -/
theorem C7_training_is_deterministic (stop_words : List String) (args : Args)
    (exs1 exs2 dev_exs : List SentimentExample) (fe : FeatureExtractor)
    (h : exs1 = exs2) :
    train_model stop_words args exs1 dev_exs =
        train_model stop_words args exs2 dev_exs ∧
      train_logistic_regression exs1 fe = train_logistic_regression exs2 fe ∧
      build_unigram_vocab stop_words ⟨[]⟩ exs1 =
        build_unigram_vocab stop_words ⟨[]⟩ exs2 ∧
      build_bigram_vocab stop_words ⟨[]⟩ exs1 =
        build_bigram_vocab stop_words ⟨[]⟩ exs2 := by
  subst h
  exact ⟨rfl, rfl, rfl, rfl⟩

/-- C7 witness at the tiny training set the spec names. -/
theorem C7_witness :
    train_logistic_regression
        [⟨["good", "movie"], 1⟩, ⟨["bad", "film"], 0⟩]
        (.unigram ⟨["good", "movie", "bad", "film"]⟩) =
      train_logistic_regression
        [⟨["good", "movie"], 1⟩, ⟨["bad", "film"], 0⟩]
        (.unigram ⟨["good", "movie", "bad", "film"]⟩) :=
  (C7_training_is_deterministic ["the"] ⟨"LR", "UNIGRAM"⟩
    [⟨["good", "movie"], 1⟩, ⟨["bad", "film"], 0⟩]
    [⟨["good", "movie"], 1⟩, ⟨["bad", "film"], 0⟩] []
    (.unigram ⟨["good", "movie", "bad", "film"]⟩) rfl).2.1

/-- C8: bigram extraction over an input of length at most 1 returns the
all-zero vector of indexer-size length (the pair loop is empty). -/
theorem C8_bigram_short_input_all_zero (indexer : Indexer)
    (ex_words : List String) (add_to_indexer : Bool)
    (h : ex_words.length ≤ 1) :
    BigramFeatureExtractor.extract_features indexer ex_words add_to_indexer =
        List.replicate indexer.size 0 ∧
      (BigramFeatureExtractor.extract_features indexer ex_words
          add_to_indexer).length = indexer.size := by
  have hz : ex_words.zip ex_words.tail = [] := by
    match ex_words, h with
    | [], _ => rfl
    | [w], _ => rfl
  unfold BigramFeatureExtractor.extract_features
  rw [hz]
  exact ⟨rfl, by simp [Indexer.size]⟩

/-- C8 witness at a one-token input over a one-feature indexer. -/
theorem C8_witness :
    BigramFeatureExtractor.extract_features ⟨["a b"]⟩ ["hello"] false =
        List.replicate (Indexer.size ⟨["a b"]⟩) 0 ∧
      (BigramFeatureExtractor.extract_features ⟨["a b"]⟩ ["hello"]
          false).length = Indexer.size ⟨["a b"]⟩ :=
  C8_bigram_short_input_all_zero ⟨["a b"]⟩ ["hello"] false (by decide)

/-- C9: predict of the trivial classifier returns 1 on every input, and
train_model with the TRIVIAL model string returns that classifier. -/
theorem C9_trivial_always_one (stop_words : List String) (args : Args)
    (train_exs dev_exs : List SentimentExample)
    (h : args.model = "TRIVIAL") :
    train_model stop_words args train_exs dev_exs =
        .ok SentimentClassifier.trivialClassifier ∧
      ∀ sentence, TrivialSentimentClassifier.predict sentence = 1 ∧
        SentimentClassifier.predict .trivialClassifier sentence = 1 := by
  refine ⟨?_, fun sentence => ⟨rfl, rfl⟩⟩
  simp [train_model, h]

/-- C9 witness at a concrete TRIVIAL configuration and input. -/
theorem C9_witness :
    train_model ["the"] ⟨"TRIVIAL", "UNIGRAM"⟩ [⟨["bad"], 0⟩] [] =
        .ok SentimentClassifier.trivialClassifier ∧
      SentimentClassifier.predict .trivialClassifier ["bad", "movie"] = 1 :=
  ⟨(C9_trivial_always_one ["the"] ⟨"TRIVIAL", "UNIGRAM"⟩ [⟨["bad"], 0⟩] []
      rfl).1,
   ((C9_trivial_always_one ["the"] ⟨"TRIVIAL", "UNIGRAM"⟩ [⟨["bad"], 0⟩] []
      rfl).2 ["bad", "movie"]).2⟩

/-- C10: the bigram vocabulary filter tests the tokens in their original case
while the added pair is lower-cased, so a capitalized stopword pair such as
"The A" passes the filter (when the capitalized variants are not themselves
stopwords) and its lower-cased form "the a" enters the vocabulary; unigram
construction, by contrast, tests the lower-cased token and skips it whenever
that form is a stopword. -/
theorem C10_bigram_filter_case_sensitivity (stop_words : List String)
    (indexer : Indexer) (hThe : "The" ∉ stop_words) :
    (bigram_vocab_sentence stop_words indexer ["The", "A"] =
        (indexer.add_and_get_index "the a").1 ∧
      (bigram_vocab_sentence stop_words indexer ["The", "A"]).contains
        "the a") ∧
    ∀ word, pyLower word ∈ stop_words →
      unigram_vocab_step stop_words indexer word = indexer := by
  have hstep : bigram_vocab_sentence stop_words indexer ["The", "A"] =
      (indexer.add_and_get_index "the a").1 := by
    show bigram_vocab_step stop_words indexer ("The", "A") = _
    rw [bigram_vocab_step_of_not_skip stop_words indexer ("The", "A") ?hskip]
    · rfl
    case hskip =>
      unfold bigram_skip
      intro hcase
      rcases hcase with ⟨h1, _⟩ | hp
      · exact hThe h1
      · revert hp
        decide
  refine ⟨⟨hstep, ?_⟩, fun word hw => ?_⟩
  · rw [hstep]
    exact contains_add_and_get_index indexer "the a"
  · unfold unigram_vocab_step
    rw [if_neg (fun hcond => hcond.1 hw)]

/-- C10 witness with a lower-case stopword list containing "the" and "a". -/
theorem C10_witness :
    bigram_vocab_sentence ["the", "a"] ⟨[]⟩ ["The", "A"] = ⟨["the a"]⟩ ∧
      unigram_vocab_step ["the", "a"] ⟨[]⟩ "The" = ⟨[]⟩ :=
  ⟨((C10_bigram_filter_case_sensitivity ["the", "a"] ⟨[]⟩
      (by decide)).1.1).trans (by decide),
   (C10_bigram_filter_case_sensitivity ["the", "a"] ⟨[]⟩
      (by decide)).2 "The" (by decide)⟩

/-- C4 counterexample: with the TRIVIAL model string and the invalid feature
string "FOO", train_model does not raise at all — the feature string is never
validated — and returns the trivial classifier, contradicting the claim that
every feature string outside the enumerated set raises immediately. -/
theorem C4_counterexample :
    train_model ["the"] ⟨"TRIVIAL", "FOO"⟩ [⟨["good"], 1⟩] [] =
        Except.ok SentimentClassifier.trivialClassifier ∧
      train_model ["the"] ⟨"TRIVIAL", "FOO"⟩ [⟨["good"], 1⟩] [] ≠
        Except.error
          "Pass in UNIGRAM, BIGRAM, or BETTER to run the appropriate system" :=
  have hok : train_model ["the"] ⟨"TRIVIAL", "FOO"⟩ [⟨["good"], 1⟩] [] =
      Except.ok SentimentClassifier.trivialClassifier := rfl
  ⟨hok, fun h => Except.noConfusion (hok.symm.trans h)⟩

/-- C4 amended: when the model string is TRIVIAL, train_model ignores the
feature string entirely and returns the trivial classifier with no error; when
the model string is not TRIVIAL and the feature string is outside
{UNIGRAM, BIGRAM, BETTER}, it raises the error naming the valid feature
choices, with a result independent of the training examples; when the model
string is outside {TRIVIAL, PERCEPTRON, LR} and the feature string is UNIGRAM
or BIGRAM, it raises the error naming the valid model choices (after the
vocabulary-construction phase has run). -/
theorem C4_amended_dispatch_errors (stop_words : List String) (args : Args)
    (train_exs dev_exs : List SentimentExample) :
    (args.model = "TRIVIAL" →
      train_model stop_words args train_exs dev_exs =
        .ok SentimentClassifier.trivialClassifier) ∧
    (args.model ≠ "TRIVIAL" → args.feats ≠ "UNIGRAM" → args.feats ≠ "BIGRAM" →
      args.feats ≠ "BETTER" →
      train_model stop_words args train_exs dev_exs =
          .error
            "Pass in UNIGRAM, BIGRAM, or BETTER to run the appropriate system" ∧
        ∀ other_exs, train_model stop_words args train_exs dev_exs =
          train_model stop_words args other_exs dev_exs) ∧
    (args.model ≠ "TRIVIAL" → args.model ≠ "PERCEPTRON" → args.model ≠ "LR" →
      (args.feats = "UNIGRAM" ∨ args.feats = "BIGRAM") →
      train_model stop_words args train_exs dev_exs =
        .error
          "Pass in TRIVIAL, PERCEPTRON, or LR to run the appropriate system") := by
  refine ⟨fun h => by simp [train_model, h], ?_, ?_⟩
  · intro hm h1 h2 h3
    constructor
    · simp [train_model, hm, h1, h2, h3]
    · intro other_exs
      simp [train_model, hm, h1, h2, h3]
  · intro hm1 hm2 hm3 hf
    rcases hf with hf | hf <;> simp [train_model, hm1, hm2, hm3, hf]

/-- C4 witness: the three amended branches at concrete configurations. -/
theorem C4_witness :
    train_model ["the"] ⟨"TRIVIAL", "FOO"⟩ [] [] =
        .ok SentimentClassifier.trivialClassifier ∧
      train_model ["the"] ⟨"LR", "FOO"⟩ [⟨["good"], 1⟩] [] =
        .error
          "Pass in UNIGRAM, BIGRAM, or BETTER to run the appropriate system" ∧
      train_model ["the"] ⟨"FOO", "UNIGRAM"⟩ [⟨["good"], 1⟩] [] =
        .error
          "Pass in TRIVIAL, PERCEPTRON, or LR to run the appropriate system" :=
  ⟨(C4_amended_dispatch_errors ["the"] ⟨"TRIVIAL", "FOO"⟩ [] []).1 rfl,
   ((C4_amended_dispatch_errors ["the"] ⟨"LR", "FOO"⟩ [⟨["good"], 1⟩] []).2.1
      (by decide) (by decide) (by decide) (by decide)).1,
   (C4_amended_dispatch_errors ["the"] ⟨"FOO", "UNIGRAM"⟩ [⟨["good"], 1⟩]
      []).2.2 (by decide) (by decide) (by decide) (Or.inl rfl)⟩

/-- C5: unigram extraction returns a dense vector of indexer-size length whose
entry i counts the input tokens whose lower-cased form is the feature string
stored at index i (over the duplicate-free indexer the construction maintains);
unrecognized tokens are silently ignored, and an input with no recognized
tokens yields the all-zero vector. -/
theorem C5_unigram_counts (indexer : Indexer) (ex_words : List String)
    (add_to_indexer : Bool) :
    (UnigramFeatureExtractor.extract_features indexer ex_words
        add_to_indexer).length = indexer.size ∧
    (indexer.objs.Nodup → ∀ i, i < indexer.size →
      (UnigramFeatureExtractor.extract_features indexer ex_words
          add_to_indexer)[i]? =
        some (ex_words.countP
          (fun w => pyLower w == indexer.objs.getD i ""))) ∧
    ((∀ w ∈ ex_words, ¬ indexer.contains (pyLower w)) →
      UnigramFeatureExtractor.extract_features indexer ex_words add_to_indexer
        = List.replicate indexer.size 0) := by
  have hfold : UnigramFeatureExtractor.extract_features indexer ex_words
      add_to_indexer = (ex_words.map pyLower).foldl
        (feature_count_step indexer) (List.replicate indexer.size 0) := by
    unfold UnigramFeatureExtractor.extract_features
    rw [List.foldl_map]
  refine ⟨?_, fun hnd i hi => ?_, fun hunseen => ?_⟩
  · rw [hfold, foldl_feature_count_step_length]
    simp [Indexer.size]
  · have hrep : (List.replicate indexer.size (0 : ℕ))[i]? = some 0 :=
      List.getElem?_replicate_of_lt hi
    rw [hfold, foldl_feature_count_step_getElem indexer hnd
      (ex_words.map pyLower) (List.replicate indexer.size 0) 0 i hi
      (by simp [Indexer.size]) hrep]
    rw [List.countP_map, Nat.zero_add]
    rfl
  · rw [hfold, foldl_feature_count_step_unseen]
    intro s hs
    rcases List.mem_map.1 hs with ⟨w, hw, rfl⟩
    exact hunseen w hw

/-- C5 witness over the two-feature indexer (good, movie): entry 0 counts the
case-insensitive occurrences of good, and a fully-unrecognized input gives the
zero vector. -/
theorem C5_witness :
    (UnigramFeatureExtractor.extract_features ⟨["good", "movie"]⟩
        ["Good", "good", "bad"] false)[0]? =
      some ((["Good", "good", "bad"]).countP
        (fun w => pyLower w == (["good", "movie"]).getD 0 "")) ∧
    UnigramFeatureExtractor.extract_features ⟨["good", "movie"]⟩ ["?"] false =
      List.replicate (Indexer.size ⟨["good", "movie"]⟩) 0 :=
  ⟨(C5_unigram_counts ⟨["good", "movie"]⟩ ["Good", "good", "bad"] false).2.1
      (by decide) 0 (by decide),
   (C5_unigram_counts ⟨["good", "movie"]⟩ ["?"] false).2.2 (by decide)⟩
